import Mathlib

/-!
Verification of the host-side attachment manager of the OVS userspace CNI
plugin (cniovs/cniovs.go), against its natural-language specification.

The orchestrator (AddOnHost, DelFromHost and their helpers) is embedded
below as pure Lean functions over an explicit world state.  The external
collaborators that are not part of the sampled source (the ovsctl vswitch
primitives, the ovsdb saved-attachment store, the OS filesystem calls) are
modelled from the spec as operations on that world state, with an
environment record deciding which external calls succeed.
-/

namespace CniOvs

/-- Vhost configuration of a request (usrsptypes.VhostConf); only the
socket-ownership mode field is used by this core. -/
structure VhostConf where
  Mode : String
deriving Repr, DecidableEq

/-- Bridge configuration of a request (usrsptypes.BridgeConf); only the
bridge name is used by this core. -/
structure BridgeConf where
  BridgeName : String
deriving Repr, DecidableEq

/-- Host-side part of a request (usrsptypes.HostConf). -/
structure HostConf where
  IfType : String
  NetType : String
  VhostConf : VhostConf
  BridgeConf : BridgeConf
deriving Repr, DecidableEq

/-- A network attachment request (usrsptypes.NetConf); only the host
configuration is consumed by this core. -/
structure NetConf where
  HostConf : HostConf
deriving Repr, DecidableEq

/-- CNI invocation context (skel.CmdArgs): the attachment identity. -/
structure CmdArgs where
  ContainerID : String
  IfName : String
deriving Repr, DecidableEq

/-- Per-attachment record (ovsdb.OvsSavedData) written at Add time and read
back at Delete time.  MAC addresses are represented by their octet lists;
the hex-string formatting done by fmt.Sprintf in the source is presentation
only and is not modelled. -/
structure OvsSavedData where
  Vhostname : String
  VhostMac : List Nat
  IfMac : List Nat
deriving Repr, DecidableEq

/-- A vhost-user port of the vswitch: its name, the bridge it is attached
to (empty string when standalone) and its socket-ownership mode. -/
structure OvsPort where
  name : String
  bridge : String
  clientMode : Bool
deriving Repr, DecidableEq

/-- Modelled from the spec: the vswitch control-plane state visible to this
core, namely the set of bridges and the set of vhost-user ports.  The
ovsctl command wrappers are not part of the sampled source. -/
structure VSwitch where
  bridges : List String
  ports : List OvsPort
deriving Repr, DecidableEq

/-- The world the orchestrator mutates: the vswitch, the shared socket
directory (its existence and its file listing) and the Saved-Attachment
Store keyed by (containerID, interfaceName). -/
structure World where
  sw : VSwitch
  sockDirExists : Bool
  sockFiles : List String
  store : List ((String × String) × OvsSavedData)
deriving Repr, DecidableEq

/-- Environment deciding the outcome of each external call that can fail,
and supplying the bytes produced by the random source. -/
structure Env where
  createBridgeOk : Bool
  deleteBridgeOk : Bool
  createPortOk : Bool
  deletePortOk : Bool
  portMac : Option (List Nat)
  mkdirOk : Bool
  readdirOk : Bool
  removesOk : Bool
  removeDirOk : Bool
  saveOk : Bool
  randBytes : List Nat
deriving Repr, DecidableEq

/-- const defaultBridge = "br0" -/
def defaultBridge : String := "br0"

/-- Modelled from the spec: findBridge queries whether a bridge of the
given name exists on the vswitch (ovsctl is not under src). -/
def findBridge (name : String) (sw : VSwitch) : Bool :=
  sw.bridges.contains name

/-- Modelled from the spec: createBridge adds a bridge of the given name
to the vswitch (ovsctl is not under src). -/
def createBridge (name : String) (sw : VSwitch) : VSwitch :=
  { sw with bridges := name :: sw.bridges }

/-- Modelled from the spec: deleteBridge removes the bridge of the given
name from the vswitch (ovsctl is not under src). -/
def deleteBridge (name : String) (sw : VSwitch) : VSwitch :=
  { sw with bridges := sw.bridges.filter (fun b => !(b == name)) }

/-- Modelled from the spec: doesBridgeContainInterfaces queries whether any
interface is still attached to the named bridge (ovsctl is not under src). -/
def doesBridgeContainInterfaces (name : String) (sw : VSwitch) : Bool :=
  sw.ports.any (fun p => p.bridge == name)

/-- Modelled from the spec: createVhostPort adds a vhost-user port whose
socket lives under sockDir/sockRef, in client or server mode as requested,
attached to bridgeName if non-empty, and returns the assigned port name
(the socket reference serves as the port name; ovsctl is not under src). -/
def createVhostPort (sockRef : String) (clientMode : Bool)
    (bridgeName : String) (sw : VSwitch) : String × VSwitch :=
  (sockRef,
   { sw with ports := { name := sockRef, bridge := bridgeName,
                        clientMode := clientMode } :: sw.ports })

/-- Modelled from the spec: deleteVhostPort removes the named port,
tolerant of the port already being absent (ovs-vsctl runs with
--if-exists; ovsctl is not under src).  The bridge argument is carried for
fidelity with the call site but does not affect removal by name. -/
def deleteVhostPort (portName : String) (bridgeName : String)
    (sw : VSwitch) : VSwitch :=
  { sw with ports := sw.ports.filter (fun p => !(p.name == portName)) }

/-- Modelled from the spec: the Saved-Attachment Store persists
OvsSavedData keyed by (containerID, interfaceName); ovsdb.SaveConfig is not
under src.  Re-saving the same identity overwrites the prior record. -/
def saveConfig (args : CmdArgs) (data : OvsSavedData) (w : World) : World :=
  { w with store :=
      ((args.ContainerID, args.IfName), data) ::
        w.store.filter (fun kv => !(kv.fst == (args.ContainerID, args.IfName))) }

/-- Modelled from the spec: ovsdb.LoadConfig (not under src) retrieves the
record saved for the identity, failing when none is present
(ConfigNotFound).  Erasure of the record by the store is not modelled, as
no claim depends on it. -/
def loadConfig (args : CmdArgs) (w : World) : Option OvsSavedData :=
  (w.store.find? (fun kv => kv.fst == (args.ContainerID, args.IfName))).map
    Prod.snd

/-- Embeds generateRandomMacAddress: the six MAC octets before hex
formatting, from the six bytes produced by the random source.  The first
octet is (buf[0]|0x2)&0xfe as in the source. -/
def generateRandomMacAddress (buf : List Nat) : List Nat :=
  match buf with
  | b0 :: b1 :: b2 :: b3 :: b4 :: b5 :: _ =>
      [(b0 ||| 0x2) &&& 0xfe, b1, b2, b3, b4, b5]
  | _ => []

/-- The characters that are special in Go regular-expression syntax.  A
base name containing none of them compiles to a plain literal pattern. -/
def regexMeta : List Char :=
  ['\\', '.', '+', '*', '?', '(', ')', '|', '[', ']', '\x7b', '\x7d', '^', '$']

/-- Whether a string is free of regex metacharacters, so that used as a
pattern it matches only its own literal occurrence.  The reference strings
of delLocalDeviceVhost are interpolated into the pattern
fileBaseName+".*" without quoting, so only identities satisfying this
predicate have the substring-containment semantics; the C5/C10 theorems
below carry it as a hypothesis. -/
def regexLiteral (s : String) : Bool :=
  s.toList.all (fun c => !(regexMeta.contains c))

/-- Embeds the regexp.MatchString(fileBaseName+".*", fileName) test of
delLocalDeviceVhost for base names satisfying regexLiteral: for such a
base name the pattern compiles, and the unanchored search succeeds exactly
when the base name occurs in fileName as a contiguous substring (the
trailing .* may match the empty string).  For base names with
metacharacters the real MatchString behaves differently ("." matches any
character; an invalid pattern makes the ignored-error call yield false),
so every theorem quantifying over identities restricts them with
regexLiteral. -/
def fileNameMatch (fileBaseName fileName : String) : Bool :=
  decide (fileBaseName.toList <:+: fileName.toList)

/-- Embeds the bridge-name normalization that AddOnHost (lines 71-74) and
DelFromHost (lines 146-149) both apply inline, with character-identical
code: a request whose NetType is not "bridge" is coerced to
NetType = "bridge" with the default bridge name. -/
def normalizeConf (conf : NetConf) : NetConf :=
  if conf.HostConf.NetType != "bridge" then
    { conf with HostConf :=
        { conf.HostConf with NetType := "bridge",
                             BridgeConf := { BridgeName := defaultBridge } } }
  else conf

/-- Embeds addLocalNetworkBridge: create the bridge only when findBridge
does not report it present. -/
def addLocalNetworkBridge (env : Env) (conf : NetConf) (w : World) :
    Except String Unit × World :=
  if findBridge conf.HostConf.BridgeConf.BridgeName w.sw then
    (Except.ok (), w)
  else if env.createBridgeOk then
    (Except.ok (), { w with sw := createBridge conf.HostConf.BridgeConf.BridgeName w.sw })
  else
    (Except.error "VswitchOperationFailed: add-br", w)

/-- Embeds delLocalNetworkBridge: delete the bridge only when
doesBridgeContainInterfaces reports no interface still attached to it. -/
def delLocalNetworkBridge (env : Env) (conf : NetConf) (w : World) :
    Except String Unit × World :=
  if doesBridgeContainInterfaces conf.HostConf.BridgeConf.BridgeName w.sw then
    (Except.ok (), w)
  else if env.deleteBridgeOk then
    (Except.ok (), { w with sw := deleteBridge conf.HostConf.BridgeConf.BridgeName w.sw })
  else
    (Except.error "VswitchOperationFailed: del-br", w)

/-- The zero OvsSavedData value declared by `var data ovsdb.OvsSavedData`. -/
def emptyData : OvsSavedData :=
  { Vhostname := "", VhostMac := [], IfMac := [] }

/-- Embeds addLocalDeviceVhost: derive the socket reference from the
truncated container ID and the interface name, ensure the socket directory
exists, derive clientMode by comparing VhostConf.Mode with the literal
string "Mode" exactly as the source does, create the port, and on success
populate the saved data; a failure of the port-MAC query is checked with a
shadowed err variable in the source and therefore leaves VhostMac
unpopulated without failing the call. -/
def addLocalDeviceVhost (env : Env) (conf : NetConf) (args : CmdArgs)
    (data : OvsSavedData) (w : World) :
    Except String Unit × OvsSavedData × World :=
  let sockRef := String.intercalate "-" [args.ContainerID.take 12, args.IfName]
  let dirStep : Except String Unit × World :=
    if w.sockDirExists then (Except.ok (), w)
    else if env.mkdirOk then (Except.ok (), { w with sockDirExists := true })
    else (Except.error "FilesystemError: mkdir", w)
  match dirStep with
  | (Except.error e, w1) => (Except.error e, data, w1)
  | (Except.ok _, w1) =>
    let clientMode := conf.HostConf.VhostConf.Mode == "Mode"
    let bridgeName :=
      if conf.HostConf.NetType == "bridge" then
        conf.HostConf.BridgeConf.BridgeName
      else ""
    if env.createPortOk then
      let r := createVhostPort sockRef clientMode bridgeName w1.sw
      let data1 :=
        match env.portMac with
        | some m => { data with VhostMac := m }
        | none => data
      let data2 := { data1 with Vhostname := r.fst,
                                IfMac := generateRandomMacAddress env.randBytes }
      (Except.ok (), data2, { w1 with sw := r.snd })
    else
      (Except.error "VswitchOperationFailed: add-port", data, w1)

/-- Embeds delLocalDeviceVhost: the whole cleanup is guarded by the port
deletion succeeding, and the function ends in `return nil`, so a failing
deleteVhostPort call is swallowed (success is reported and no file is
touched).  On success: list the socket directory, remove every file whose
name matches the unanchored pattern fileBaseName+".*", and remove the
directory itself when the number of removed files equals the length of the
listing. -/
def delLocalDeviceVhost (env : Env) (conf : NetConf) (args : CmdArgs)
    (data : OvsSavedData) (w : World) : Except String Unit × World :=
  let bridgeName :=
    if conf.HostConf.NetType == "bridge" then
      conf.HostConf.BridgeConf.BridgeName
    else ""
  if env.deletePortOk then
    let w1 := { w with sw := deleteVhostPort data.Vhostname bridgeName w.sw }
    if !w1.sockDirExists then
      (Except.error "FilesystemError: open socket dir", w1)
    else if !env.readdirOk then
      (Except.error "FilesystemError: readdirnames", w1)
    else
      let fileBaseName :=
        String.append (String.append (args.ContainerID.take 12) "-") args.IfName
      let files := w1.sockFiles
      let matched := files.filter (fun f => fileNameMatch fileBaseName f)
      if env.removesOk || matched.isEmpty then
        let remaining := files.filter (fun f => !(fileNameMatch fileBaseName f))
        let w2 := { w1 with sockFiles := remaining }
        if matched.length == files.length then
          if env.removeDirOk then
            (Except.ok (), { w2 with sockDirExists := false })
          else
            (Except.error "FilesystemError: remove dir", w2)
        else
          (Except.ok (), w2)
      else
        (Except.error "FilesystemError: remove file", w1)
  else
    (Except.ok (), w)

/-- Embeds CniOvs.AddOnHost: normalize the request, ensure the bridge when
NetType is "bridge", create the local vhost-user device when IfType is
"vhostuser" (failing with the unknown-IfType error otherwise), and save
the populated record.  The returned triple carries the error value, the
request as mutated through the *conf pointer, and the final world. -/
def AddOnHost (env : Env) (conf0 : NetConf) (args : CmdArgs) (w0 : World) :
    Except String Unit × NetConf × World :=
  let conf := normalizeConf conf0
  let step1 : Except String Unit × World :=
    if conf.HostConf.NetType == "bridge" then
      addLocalNetworkBridge env conf w0
    else
      (Except.ok (), w0)
  match step1 with
  | (Except.error e, w1) => (Except.error e, conf, w1)
  | (Except.ok _, w1) =>
    let step2 : Except String Unit × OvsSavedData × World :=
      if conf.HostConf.IfType == "vhostuser" then
        addLocalDeviceVhost env conf args emptyData w1
      else
        (Except.error
          (String.append "ERROR: Unknown HostConf.IfType:" conf.HostConf.IfType),
         emptyData, w1)
    match step2 with
    | (Except.error e, _, w2) => (Except.error e, conf, w2)
    | (Except.ok _, data, w2) =>
      if env.saveOk then
        (Except.ok (), conf, saveConfig args data w2)
      else
        (Except.error "FilesystemError: SaveConfig", conf, w2)

/-- Embeds CniOvs.DelFromHost: load the saved record (failing with
ConfigNotFound when absent), normalize the request exactly as AddOnHost
does, delete the local vhost-user device when IfType is "vhostuser"
(failing with the unknown-IfType error otherwise), and finally delete the
bridge when empty.  The returned triple carries the error value, the
request as mutated through the *conf pointer, and the final world. -/
def DelFromHost (env : Env) (conf0 : NetConf) (args : CmdArgs) (w0 : World) :
    Except String Unit × NetConf × World :=
  match loadConfig args w0 with
  | none => (Except.error "ConfigNotFound", conf0, w0)
  | some data =>
    let conf := normalizeConf conf0
    let step1 : Except String Unit × World :=
      if conf.HostConf.IfType == "vhostuser" then
        delLocalDeviceVhost env conf args data w0
      else
        (Except.error
          (String.append "ERROR: Unknown HostConf.Type:" conf.HostConf.IfType),
         w0)
    match step1 with
    | (Except.error e, w1) => (Except.error e, conf, w1)
    | (Except.ok _, w1) =>
      if conf.HostConf.NetType == "bridge" then
        match delLocalNetworkBridge env conf w1 with
        | (Except.error e, w2) => (Except.error e, conf, w2)
        | (Except.ok _, w2) => (Except.ok (), conf, w2)
      else
        (Except.ok (), conf, w1)

/-!  Concrete example inputs used to exercise the embedding. -/

/-- An environment in which every external call succeeds. -/
def exEnv : Env :=
  { createBridgeOk := true, deleteBridgeOk := true, createPortOk := true,
    deletePortOk := true, portMac := some [0, 1, 2, 3, 4, 5], mkdirOk := true,
    readdirOk := true, removesOk := true, removeDirOk := true, saveOk := true,
    randBytes := [16, 32, 48, 64, 80, 96] }

/-- exEnv with the vhost-user port deletion failing. -/
def exEnvDelPortFail : Env := { exEnv with deletePortOk := false }

/-- exEnv with the port-MAC query failing. -/
def exEnvMacFail : Env := { exEnv with portMac := none }

/-- The identity of the spec's worked example: container abc123def456789…,
interface eth0. -/
def exArgs : CmdArgs := { ContainerID := "abc123def456789", IfName := "eth0" }

/-- A request for an interface technology other than vhostuser. -/
def exConfBad : NetConf :=
  { HostConf := { IfType := "dpdkvirtio", NetType := "interface",
                  VhostConf := { Mode := "" },
                  BridgeConf := { BridgeName := "" } } }

/-- A vhostuser request asking for client socket mode. -/
def exConfClient : NetConf :=
  { HostConf := { IfType := "vhostuser", NetType := "",
                  VhostConf := { Mode := "client" },
                  BridgeConf := { BridgeName := "" } } }

/-- A vhostuser request asking for server socket mode. -/
def exConfServer : NetConf :=
  { HostConf := { IfType := "vhostuser", NetType := "",
                  VhostConf := { Mode := "server" },
                  BridgeConf := { BridgeName := "" } } }

/-- A vhostuser request whose mode field is the literal string "Mode". -/
def exConfModeLit : NetConf :=
  { HostConf := { IfType := "vhostuser", NetType := "",
                  VhostConf := { Mode := "Mode" },
                  BridgeConf := { BridgeName := "" } } }

/-- A vhostuser delete-time request with a non-bridge network type. -/
def exConfDel : NetConf :=
  { HostConf := { IfType := "vhostuser", NetType := "interface",
                  VhostConf := { Mode := "" },
                  BridgeConf := { BridgeName := "" } } }

/-- The empty world: no bridges, no ports, no socket directory, no store. -/
def exW0 : World :=
  { sw := { bridges := [], ports := [] }, sockDirExists := false,
    sockFiles := [], store := [] }

/-- The saved record of the worked example. -/
def exData : OvsSavedData :=
  { Vhostname := "abc123def456-eth0", VhostMac := [1], IfMac := [2] }

/-- The spec's worked example world at delete time: bridge br0, socket
files of the attachment plus one unrelated file, and the saved record. -/
def exW5 : World :=
  { sw := { bridges := ["br0"], ports := [] }, sockDirExists := true,
    sockFiles := ["abc123def456-eth0.sock", "abc123def456-eth0.lock",
                  "999999999999-eth1.sock"],
    store := [(("abc123def456789", "eth0"), exData)] }

/-- exW5 with a single socket file that merely contains (but is not
prefixed by) the attachment reference string. -/
def exW5sub : World :=
  { exW5 with sockFiles := ["x-abc123def456-eth0.sock"] }

/-- exW5 with an empty socket-directory listing. -/
def exW5empty : World := { exW5 with sockFiles := [] }

/-!  Helper lemmas. -/

/-- After normalization the network type is always "bridge". -/
theorem normalizeConf_netType (conf : NetConf) :
    (normalizeConf conf).HostConf.NetType = "bridge" := by
  unfold normalizeConf
  split
  case isTrue h => rfl
  case isFalse h => simpa using h

/-- Normalization does not change the interface type. -/
theorem normalizeConf_ifType (conf : NetConf) :
    (normalizeConf conf).HostConf.IfType = conf.HostConf.IfType := by
  unfold normalizeConf
  split <;> rfl

/-- A request whose network type is not "bridge" is coerced to the default
bridge name. -/
theorem normalizeConf_bridgeName (conf : NetConf)
    (h : conf.HostConf.NetType ≠ "bridge") :
    (normalizeConf conf).HostConf.BridgeConf.BridgeName = "br0" := by
  unfold normalizeConf
  rw [if_pos]
  · rfl
  · simpa using h

/-- AddOnHost always hands back the normalized request. -/
theorem AddOnHost_conf (env : Env) (conf : NetConf) (args : CmdArgs)
    (w : World) : (AddOnHost env conf args w).2.1 = normalizeConf conf := by
  simp only [AddOnHost]
  repeat' split
  all_goals rfl

/-- DelFromHost hands back the normalized request whenever the saved
record was found. -/
theorem DelFromHost_conf (env : Env) (conf : NetConf) (args : CmdArgs)
    (w : World) (d : OvsSavedData) (h : loadConfig args w = some d) :
    (DelFromHost env conf args w).2.1 = normalizeConf conf := by
  simp only [DelFromHost, h]
  repeat' split
  all_goals rfl

/-- The bridge-ensure step succeeds whenever bridge creation can succeed. -/
theorem addLocalNetworkBridge_ok (env : Env) (conf : NetConf) (w : World)
    (h : env.createBridgeOk = true) :
    (addLocalNetworkBridge env conf w).1 = Except.ok () := by
  simp only [addLocalNetworkBridge, h]
  split <;> rfl

/-- The bridge-ensure step only ever touches the bridge list. -/
theorem addLocalNetworkBridge_frame (env : Env) (conf : NetConf) (w : World) :
    (addLocalNetworkBridge env conf w).2.sw.ports = w.sw.ports ∧
    (addLocalNetworkBridge env conf w).2.sockDirExists = w.sockDirExists ∧
    (addLocalNetworkBridge env conf w).2.sockFiles = w.sockFiles ∧
    (addLocalNetworkBridge env conf w).2.store = w.store := by
  unfold addLocalNetworkBridge createBridge
  repeat' split
  all_goals exact ⟨rfl, rfl, rfl, rfl⟩

/-- The bridge-release step only ever touches the bridge list. -/
theorem delLocalNetworkBridge_frame (env : Env) (conf : NetConf) (w : World) :
    (delLocalNetworkBridge env conf w).2.sw.ports = w.sw.ports ∧
    (delLocalNetworkBridge env conf w).2.sockDirExists = w.sockDirExists ∧
    (delLocalNetworkBridge env conf w).2.sockFiles = w.sockFiles ∧
    (delLocalNetworkBridge env conf w).2.store = w.store := by
  unfold delLocalNetworkBridge deleteBridge
  repeat' split
  all_goals exact ⟨rfl, rfl, rfl, rfl⟩

/-- When the port deletion is doomed to fail, delLocalDeviceVhost swallows
the error: it reports success and leaves the world untouched. -/
theorem delLocalDeviceVhost_swallow (env : Env) (conf : NetConf)
    (args : CmdArgs) (data : OvsSavedData) (w : World)
    (h : env.deletePortOk = false) :
    delLocalDeviceVhost env conf args data w = (Except.ok (), w) := by
  simp [delLocalDeviceVhost, h]

/-- When all the filesystem calls succeed, delLocalDeviceVhost reports
success and the surviving listing is exactly the delete-time listing with
every matching file removed. -/
theorem delLocalDeviceVhost_files (env : Env) (conf : NetConf)
    (args : CmdArgs) (data : OvsSavedData) (w : World)
    (h1 : env.deletePortOk = true) (h2 : env.readdirOk = true)
    (h3 : env.removesOk = true) (h4 : env.removeDirOk = true)
    (h5 : w.sockDirExists = true) :
    (delLocalDeviceVhost env conf args data w).1 = Except.ok () ∧
    (delLocalDeviceVhost env conf args data w).2.sockFiles =
      w.sockFiles.filter (fun f =>
        !(fileNameMatch (args.ContainerID.take 12 ++ "-" ++ args.IfName) f)) ∧
    (delLocalDeviceVhost env conf args data w).2.sockDirExists =
      !((w.sockFiles.filter (fun f =>
          fileNameMatch (args.ContainerID.take 12 ++ "-" ++ args.IfName) f)).length ==
        w.sockFiles.length) := by
  simp only [delLocalDeviceVhost, deleteVhostPort, h1, h2, h3, h4, h5,
    if_true, Bool.not_true, Bool.false_eq_true, if_false, Bool.true_or]
  repeat' split
  all_goals simp_all
  all_goals exact ⟨rfl, by assumption⟩

/-- The vhost-device creation step succeeds whenever the directory
creation and the port creation can succeed (a port-MAC query failure does
not fail the step). -/
theorem addLocalDeviceVhost_ok (env : Env) (conf : NetConf) (args : CmdArgs)
    (data : OvsSavedData) (w : World)
    (hmk : env.mkdirOk = true) (hcp : env.createPortOk = true) :
    (addLocalDeviceVhost env conf args data w).1 = Except.ok () := by
  by_cases hd : w.sockDirExists = true
  · simp [addLocalDeviceVhost, hd, hmk, hcp]
  · simp only [Bool.not_eq_true] at hd
    simp [addLocalDeviceVhost, hd, hmk, hcp]

/-- When the port-MAC query fails, the vhost-device creation step leaves
the VhostMac field of the saved data exactly as it was. -/
theorem addLocalDeviceVhost_noMac (env : Env) (conf : NetConf)
    (args : CmdArgs) (data : OvsSavedData) (w : World)
    (hmk : env.mkdirOk = true) (hcp : env.createPortOk = true)
    (hmac : env.portMac = none) :
    (addLocalDeviceVhost env conf args data w).2.1.VhostMac = data.VhostMac := by
  by_cases hd : w.sockDirExists = true
  · simp [addLocalDeviceVhost, hd, hmk, hcp, hmac]
  · simp only [Bool.not_eq_true] at hd
    simp [addLocalDeviceVhost, hd, hmk, hcp, hmac]

/-- Loading an identity right after saving it returns the saved record. -/
theorem loadConfig_saveConfig (args : CmdArgs) (d : OvsSavedData)
    (w : World) : loadConfig args (saveConfig args d w) = some d := by
  simp [loadConfig, saveConfig]

/-- On the success path (bridge ensured, device created, record saved),
AddOnHost returns success, the normalized request, and the world produced
by the three steps in order. -/
theorem AddOnHost_steps (env : Env) (conf : NetConf) (args : CmdArgs)
    (w : World)
    (hif : conf.HostConf.IfType = "vhostuser")
    (hb : env.createBridgeOk = true) (hmk : env.mkdirOk = true)
    (hcp : env.createPortOk = true) (hsv : env.saveOk = true) :
    AddOnHost env conf args w =
      (Except.ok (), normalizeConf conf,
       saveConfig args
         (addLocalDeviceVhost env (normalizeConf conf) args emptyData
            (addLocalNetworkBridge env (normalizeConf conf) w).2).2.1
         (addLocalDeviceVhost env (normalizeConf conf) args emptyData
            (addLocalNetworkBridge env (normalizeConf conf) w).2).2.2) := by
  have hnet := normalizeConf_netType conf
  have hif2 : ((normalizeConf conf).HostConf.IfType == "vhostuser") = true := by
    rw [normalizeConf_ifType, hif, beq_self_eq_true]
  have hok := addLocalNetworkBridge_ok env (normalizeConf conf) w hb
  rcases hA : addLocalNetworkBridge env (normalizeConf conf) w with ⟨r1, wb⟩
  rw [hA] at hok
  simp only at hok
  subst hok
  have hok2 := addLocalDeviceVhost_ok env (normalizeConf conf) args emptyData wb hmk hcp
  rcases hD : addLocalDeviceVhost env (normalizeConf conf) args emptyData wb with ⟨r2, d2, wd⟩
  rw [hD] at hok2
  simp only at hok2
  subst hok2
  simp [AddOnHost, hnet, hif2, hA, hD, hsv]

/-- When the saved record is found and the device-deletion step reports
success, DelFromHost finishes with the bridge-release step and returns its
result together with the normalized request. -/
theorem DelFromHost_steps (env : Env) (conf : NetConf) (args : CmdArgs)
    (w : World) (data : OvsSavedData)
    (hload : loadConfig args w = some data)
    (hif : conf.HostConf.IfType = "vhostuser")
    (hstep : (delLocalDeviceVhost env (normalizeConf conf) args data w).1 =
      Except.ok ()) :
    DelFromHost env conf args w =
      ((delLocalNetworkBridge env (normalizeConf conf)
          (delLocalDeviceVhost env (normalizeConf conf) args data w).2).1,
       normalizeConf conf,
       (delLocalNetworkBridge env (normalizeConf conf)
          (delLocalDeviceVhost env (normalizeConf conf) args data w).2).2) := by
  have hnet := normalizeConf_netType conf
  have hif2 : ((normalizeConf conf).HostConf.IfType == "vhostuser") = true := by
    rw [normalizeConf_ifType, hif, beq_self_eq_true]
  rcases hD : delLocalDeviceVhost env (normalizeConf conf) args data w with ⟨r1, wd⟩
  rw [hD] at hstep
  simp only at hstep
  subst hstep
  rcases hB : delLocalNetworkBridge env (normalizeConf conf) wd with ⟨r2, wb⟩
  rcases r2 with e | u
  · simp [DelFromHost, hload, hnet, hif2, hD, hB]
  · simp [DelFromHost, hload, hnet, hif2, hD, hB]

/-!  Claim theorems. -/

/-- Claim C2: AddOnHost and DelFromHost apply the identical normalization
to the request: every request whose networkType is not "bridge" (including
empty) is coerced, on both calls, to networkType = "bridge" with
bridgeName = "br0", so Add and Delete derive the same bridge name even
when the Delete-time request differs from the Add-time request. -/
theorem claim_C2 (env1 env2 : Env) (conf1 conf2 : NetConf) (args : CmdArgs)
    (w1 w2 : World) (d : OvsSavedData)
    (h1 : conf1.HostConf.NetType ≠ "bridge")
    (h2 : conf2.HostConf.NetType ≠ "bridge")
    (hload : loadConfig args w2 = some d) :
    (AddOnHost env1 conf1 args w1).2.1.HostConf.NetType = "bridge" ∧
    (AddOnHost env1 conf1 args w1).2.1.HostConf.BridgeConf.BridgeName = "br0" ∧
    (DelFromHost env2 conf2 args w2).2.1.HostConf.NetType = "bridge" ∧
    (DelFromHost env2 conf2 args w2).2.1.HostConf.BridgeConf.BridgeName = "br0" := by
  rw [AddOnHost_conf, DelFromHost_conf env2 conf2 args w2 d hload]
  exact ⟨normalizeConf_netType conf1, normalizeConf_bridgeName conf1 h1,
         normalizeConf_netType conf2, normalizeConf_bridgeName conf2 h2⟩

/-- Witness for claim C2 at an Add-time request with empty networkType and
a Delete-time request with networkType "interface". -/
theorem claim_C2_witness :
    exConfClient.HostConf.NetType ≠ "bridge" ∧
    exConfDel.HostConf.NetType ≠ "bridge" ∧
    loadConfig exArgs exW5 = some exData ∧
    ((AddOnHost exEnv exConfClient exArgs exW0).2.1.HostConf.NetType = "bridge" ∧
     (AddOnHost exEnv exConfClient exArgs exW0).2.1.HostConf.BridgeConf.BridgeName = "br0" ∧
     (DelFromHost exEnv exConfDel exArgs exW5).2.1.HostConf.NetType = "bridge" ∧
     (DelFromHost exEnv exConfDel exArgs exW5).2.1.HostConf.BridgeConf.BridgeName = "br0") :=
  ⟨by decide, by decide, rfl,
   claim_C2 exEnv exEnv exConfClient exConfDel exArgs exW0 exW5 exData
     (by decide) (by decide) rfl⟩

/-- Claim C6: DelFromHost for an identity with no record in the
Saved-Attachment Store returns ConfigNotFound and performs no vswitch or
filesystem mutation: the whole world (bridges, ports, socket directory and
store) is returned unchanged, and so is the request. -/
theorem claim_C6 (env : Env) (conf : NetConf) (args : CmdArgs) (w : World)
    (h : loadConfig args w = none) :
    (DelFromHost env conf args w).1 = Except.error "ConfigNotFound" ∧
    (DelFromHost env conf args w).2.2 = w ∧
    (DelFromHost env conf args w).2.1 = conf := by
  simp [DelFromHost, h]

/-- Witness for claim C6 on the empty store. -/
theorem claim_C6_witness :
    loadConfig exArgs exW0 = none ∧
    ((DelFromHost exEnv exConfDel exArgs exW0).1 = Except.error "ConfigNotFound" ∧
     (DelFromHost exEnv exConfDel exArgs exW0).2.2 = exW0 ∧
     (DelFromHost exEnv exConfDel exArgs exW0).2.1 = exConfDel) :=
  ⟨rfl, claim_C6 exEnv exConfDel exArgs exW0 rfl⟩

/-- Claim C8: bridge lifecycle is idempotent and reference-derived: the
Add-side step creates the bridge only when findBridge reports it absent
and is a no-op otherwise, and the Delete-side step deletes the bridge only
when doesBridgeContainInterfaces reports no attached interface and leaves
it in place otherwise. -/
theorem claim_C8 (env : Env) (conf : NetConf) (w : World)
    (hc : env.createBridgeOk = true) (hd : env.deleteBridgeOk = true) :
    (addLocalNetworkBridge env conf w).1 = Except.ok () ∧
    (addLocalNetworkBridge env conf w).2 =
      (if findBridge conf.HostConf.BridgeConf.BridgeName w.sw then w
       else { w with sw := createBridge conf.HostConf.BridgeConf.BridgeName w.sw }) ∧
    (delLocalNetworkBridge env conf w).1 = Except.ok () ∧
    (delLocalNetworkBridge env conf w).2 =
      (if doesBridgeContainInterfaces conf.HostConf.BridgeConf.BridgeName w.sw then w
       else { w with sw := deleteBridge conf.HostConf.BridgeConf.BridgeName w.sw }) := by
  unfold addLocalNetworkBridge delLocalNetworkBridge
  refine ⟨?_, ?_, ?_, ?_⟩ <;> split <;> simp [hc, hd]

/-- Witness for claim C8 on a world whose only bridge is br0 with no port
attached. -/
theorem claim_C8_witness :
    exEnv.createBridgeOk = true ∧ exEnv.deleteBridgeOk = true ∧
    ((addLocalNetworkBridge exEnv exConfDel exW5).1 = Except.ok () ∧
     (addLocalNetworkBridge exEnv exConfDel exW5).2 =
       (if findBridge exConfDel.HostConf.BridgeConf.BridgeName exW5.sw then exW5
        else { exW5 with
                 sw := createBridge exConfDel.HostConf.BridgeConf.BridgeName exW5.sw }) ∧
     (delLocalNetworkBridge exEnv exConfDel exW5).1 = Except.ok () ∧
     (delLocalNetworkBridge exEnv exConfDel exW5).2 =
       (if doesBridgeContainInterfaces exConfDel.HostConf.BridgeConf.BridgeName exW5.sw
        then exW5
        else { exW5 with
                 sw := deleteBridge exConfDel.HostConf.BridgeConf.BridgeName exW5.sw })) :=
  ⟨rfl, rfl, claim_C8 exEnv exConfDel exW5 rfl rfl⟩

/-- Claim C9: for every six bytes produced by the random source, the first
octet of the synthesized MAC address has the locally-administered bit
(0x02) set and the multicast bit (0x01) clear. -/
theorem claim_C9 (b0 b1 b2 b3 b4 b5 : Nat) :
    ((generateRandomMacAddress [b0, b1, b2, b3, b4, b5]).headD 0).testBit 1 = true ∧
    ((generateRandomMacAddress [b0, b1, b2, b3, b4, b5]).headD 0).testBit 0 = false := by
  have h : (generateRandomMacAddress [b0, b1, b2, b3, b4, b5]).headD 0 =
      (b0 ||| 2) &&& 254 := rfl
  rw [h]
  constructor
  · have h2 : Nat.testBit 2 1 = true := by decide
    have h254 : Nat.testBit 254 1 = true := by decide
    simp [Nat.testBit_and, Nat.testBit_or, h2, h254]
  · simp [Nat.testBit_and, Nat.testBit_or]

/-- Claim C1 fails as stated: on an empty vswitch, an AddOnHost request
with interfaceType "dpdkvirtio" is rejected with the unsupported-type
error, yet the vswitch state after the call differs from the state before
it — the default bridge br0 has been created, because the bridge-ensure
step runs before the interface-type check. -/
theorem claim_C1_counterexample :
    (AddOnHost exEnv exConfBad exArgs exW0).1 =
      Except.error "ERROR: Unknown HostConf.IfType:dpdkvirtio" ∧
    exW0.sw.bridges = [] ∧
    (AddOnHost exEnv exConfBad exArgs exW0).2.2.sw.bridges = ["br0"] :=
  ⟨rfl, rfl, rfl⟩

/-- Claim C1 (amended): an AddOnHost request whose interfaceType is not
"vhostuser" fails with the unsupported-type error and creates no port, no
socket directory and no saved record — ports, socket state and store are
unchanged — but the bridge-ensure step has already run, so the final world
is exactly the world produced by that step (in particular a previously
absent bridge has been created). -/
theorem claim_C1 (env : Env) (conf : NetConf) (args : CmdArgs) (w : World)
    (h : conf.HostConf.IfType ≠ "vhostuser") (hb : env.createBridgeOk = true) :
    (AddOnHost env conf args w).1 =
      Except.error
        (String.append "ERROR: Unknown HostConf.IfType:" conf.HostConf.IfType) ∧
    (AddOnHost env conf args w).2.2 =
      (addLocalNetworkBridge env (normalizeConf conf) w).2 ∧
    (AddOnHost env conf args w).2.2.sw.ports = w.sw.ports ∧
    (AddOnHost env conf args w).2.2.store = w.store ∧
    (AddOnHost env conf args w).2.2.sockFiles = w.sockFiles ∧
    (AddOnHost env conf args w).2.2.sockDirExists = w.sockDirExists := by
  have hnet := normalizeConf_netType conf
  have hif : ((normalizeConf conf).HostConf.IfType == "vhostuser") = false := by
    rw [normalizeConf_ifType]
    exact beq_eq_false_iff_ne.mpr h
  have hok := addLocalNetworkBridge_ok env (normalizeConf conf) w hb
  have hfr := addLocalNetworkBridge_frame env (normalizeConf conf) w
  rcases hA : addLocalNetworkBridge env (normalizeConf conf) w with ⟨r1, wb⟩
  rw [hA] at hok hfr
  simp only at hok
  subst hok
  have hone : AddOnHost env conf args w =
      (Except.error
        (String.append "ERROR: Unknown HostConf.IfType:"
          (normalizeConf conf).HostConf.IfType), normalizeConf conf, wb) := by
    simp [AddOnHost, hnet, hif, hA]
  rw [hone, normalizeConf_ifType]
  exact ⟨rfl, rfl, hfr.1, hfr.2.2.2, hfr.2.2.1, hfr.2.1⟩

/-- Witness for claim C1 (amended) at the counterexample input. -/
theorem claim_C1_witness :
    exConfBad.HostConf.IfType ≠ "vhostuser" ∧
    exEnv.createBridgeOk = true ∧
    ((AddOnHost exEnv exConfBad exArgs exW0).1 =
       Except.error
         (String.append "ERROR: Unknown HostConf.IfType:"
           exConfBad.HostConf.IfType) ∧
     (AddOnHost exEnv exConfBad exArgs exW0).2.2 =
       (addLocalNetworkBridge exEnv (normalizeConf exConfBad) exW0).2 ∧
     (AddOnHost exEnv exConfBad exArgs exW0).2.2.sw.ports = exW0.sw.ports ∧
     (AddOnHost exEnv exConfBad exArgs exW0).2.2.store = exW0.store ∧
     (AddOnHost exEnv exConfBad exArgs exW0).2.2.sockFiles = exW0.sockFiles ∧
     (AddOnHost exEnv exConfBad exArgs exW0).2.2.sockDirExists = exW0.sockDirExists) :=
  ⟨by decide, rfl, claim_C1 exEnv exConfBad exArgs exW0 (by decide) rfl⟩

/-- Claim C3 fails as stated: with the saved record present and the
vhost-user port deletion doomed to fail, DelFromHost nevertheless reports
success — the vswitch error is not returned — and it still performs the
bridge-empty check of the later step, deleting bridge br0 (while the
socket-file removal is indeed skipped). -/
theorem claim_C3_counterexample :
    (DelFromHost exEnvDelPortFail exConfDel exArgs exW5).1 = Except.ok () ∧
    exW5.sw.bridges = ["br0"] ∧
    (DelFromHost exEnvDelPortFail exConfDel exArgs exW5).2.2.sw.bridges = [] ∧
    (DelFromHost exEnvDelPortFail exConfDel exArgs exW5).2.2.sockFiles =
      exW5.sockFiles :=
  ⟨rfl, rfl, rfl, rfl⟩

/-- Claim C3 (amended): when the vhost-user port deletion fails, the error
is swallowed by delLocalDeviceVhost (the function ends in `return nil`):
DelFromHost does not return the vswitch error, the socket-file removal and
directory check are skipped (socket state and ports unchanged), but the
bridge-empty check and possible bridge deletion still run, and the call
returns the bridge step's result. -/
theorem claim_C3 (env : Env) (conf : NetConf) (args : CmdArgs) (w : World)
    (data : OvsSavedData)
    (hload : loadConfig args w = some data)
    (hif : conf.HostConf.IfType = "vhostuser")
    (hdel : env.deletePortOk = false) :
    DelFromHost env conf args w =
      ((delLocalNetworkBridge env (normalizeConf conf) w).1,
       normalizeConf conf,
       (delLocalNetworkBridge env (normalizeConf conf) w).2) ∧
    (DelFromHost env conf args w).2.2.sockFiles = w.sockFiles ∧
    (DelFromHost env conf args w).2.2.sockDirExists = w.sockDirExists ∧
    (DelFromHost env conf args w).2.2.sw.ports = w.sw.ports := by
  have hsw := delLocalDeviceVhost_swallow env (normalizeConf conf) args data w hdel
  have hstep : (delLocalDeviceVhost env (normalizeConf conf) args data w).1 =
      Except.ok () := by rw [hsw]
  have hmain := DelFromHost_steps env conf args w data hload hif hstep
  rw [hsw] at hmain
  have hfr := delLocalNetworkBridge_frame env (normalizeConf conf) w
  rw [hmain]
  exact ⟨rfl, hfr.2.2.1, hfr.2.1, hfr.1⟩

/-- Witness for claim C3 (amended) at the counterexample input. -/
theorem claim_C3_witness :
    loadConfig exArgs exW5 = some exData ∧
    exConfDel.HostConf.IfType = "vhostuser" ∧
    exEnvDelPortFail.deletePortOk = false ∧
    (DelFromHost exEnvDelPortFail exConfDel exArgs exW5 =
       ((delLocalNetworkBridge exEnvDelPortFail (normalizeConf exConfDel) exW5).1,
        normalizeConf exConfDel,
        (delLocalNetworkBridge exEnvDelPortFail (normalizeConf exConfDel) exW5).2) ∧
     (DelFromHost exEnvDelPortFail exConfDel exArgs exW5).2.2.sockFiles =
       exW5.sockFiles ∧
     (DelFromHost exEnvDelPortFail exConfDel exArgs exW5).2.2.sockDirExists =
       exW5.sockDirExists ∧
     (DelFromHost exEnvDelPortFail exConfDel exArgs exW5).2.2.sw.ports =
       exW5.sw.ports) :=
  ⟨rfl, rfl, rfl,
   claim_C3 exEnvDelPortFail exConfDel exArgs exW5 exData rfl rfl rfl⟩

/-- Claim C4 concerns a code bug: the source decides client socket mode by
comparing VhostConf.Mode with the literal string "Mode" rather than with
"client".  At the failing input vhostMode = "client" the port is created
in server mode (clientMode = false), vhostMode = "server" also yields
server mode, and the nonsensical value "Mode" is the one that yields
client mode. -/
theorem claim_C4_bug :
    (AddOnHost exEnv exConfClient exArgs exW0).2.2.sw.ports.map
      OvsPort.clientMode = [false] ∧
    (AddOnHost exEnv exConfServer exArgs exW0).2.2.sw.ports.map
      OvsPort.clientMode = [false] ∧
    (AddOnHost exEnv exConfModeLit exArgs exW0).2.2.sw.ports.map
      OvsPort.clientMode = [true] :=
  ⟨rfl, rfl, rfl⟩

/-- Claim C5 fails as stated: the removal pattern fileBaseName+".*" is an
unanchored regular expression, so a file whose name merely contains the
reference string "abc123def456-eth0" — without being prefixed by it — is
removed as well: "x-abc123def456-eth0.sock" is not prefixed by the
reference string, yet DelFromHost removes it. -/
theorem claim_C5_counterexample :
    exArgs.ContainerID.take 12 ++ "-" ++ exArgs.IfName = "abc123def456-eth0" ∧
    ¬ ("abc123def456-eth0".toList <+: "x-abc123def456-eth0.sock".toList) ∧
    exW5sub.sockFiles = ["x-abc123def456-eth0.sock"] ∧
    (DelFromHost exEnv exConfDel exArgs exW5sub).2.2.sockFiles = [] := by
  refine ⟨by decide, by decide, rfl, by decide⟩

/-- Claim C5 (amended): for every attachment whose reference string is
free of regex metacharacters (so that the unanchored pattern
fileBaseName+".*" compiles and matches literally), DelFromHost removes
exactly those files of the socket-directory listing whose name contains
the reference string as a contiguous substring — which includes every
file prefixed by it — and leaves every other file untouched; on the
spec's example listing this removes the two prefixed files and leaves the
unrelated one. -/
theorem claim_C5 (env : Env) (conf : NetConf) (args : CmdArgs) (w : World)
    (data : OvsSavedData) (f : String)
    (hload : loadConfig args w = some data)
    (hif : conf.HostConf.IfType = "vhostuser")
    (h1 : env.deletePortOk = true) (h2 : env.readdirOk = true)
    (h3 : env.removesOk = true) (h4 : env.removeDirOk = true)
    (h5 : w.sockDirExists = true)
    (hlit : regexLiteral (args.ContainerID.take 12 ++ "-" ++ args.IfName) = true) :
    f ∈ (DelFromHost env conf args w).2.2.sockFiles ↔
      f ∈ w.sockFiles ∧
        ¬ ((args.ContainerID.take 12 ++ "-" ++ args.IfName).toList <:+: f.toList) := by
  have hD := delLocalDeviceVhost_files env (normalizeConf conf) args data w h1 h2 h3 h4 h5
  rw [DelFromHost_steps env conf args w data hload hif hD.1]
  have hfr := delLocalNetworkBridge_frame env (normalizeConf conf)
    (delLocalDeviceVhost env (normalizeConf conf) args data w).2
  dsimp only
  rw [hfr.2.2.1, hD.2.1]
  simp [List.mem_filter, fileNameMatch]

/-- Witness for claim C5 (amended) on the spec's example listing: the
unrelated file "999999999999-eth1.sock" survives the call. -/
theorem claim_C5_witness :
    loadConfig exArgs exW5 = some exData ∧
    exConfDel.HostConf.IfType = "vhostuser" ∧
    exW5.sockDirExists = true ∧
    regexLiteral (exArgs.ContainerID.take 12 ++ "-" ++ exArgs.IfName) = true ∧
    ("999999999999-eth1.sock" ∈ (DelFromHost exEnv exConfDel exArgs exW5).2.2.sockFiles ↔
      "999999999999-eth1.sock" ∈ exW5.sockFiles ∧
        ¬ ((exArgs.ContainerID.take 12 ++ "-" ++ exArgs.IfName).toList <:+:
            "999999999999-eth1.sock".toList)) :=
  ⟨rfl, rfl, rfl, by decide,
   claim_C5 exEnv exConfDel exArgs exW5 exData "999999999999-eth1.sock"
     rfl rfl rfl rfl rfl rfl rfl (by decide)⟩

/-- Claim C7 fails as stated: with every other external call succeeding
but the port-MAC query failing, AddOnHost succeeds anyway, and the record
it saves carries an unpopulated vhostPortMac. -/
theorem claim_C7_counterexample :
    (AddOnHost exEnvMacFail exConfClient exArgs exW0).1 = Except.ok () ∧
    (loadConfig exArgs (AddOnHost exEnvMacFail exConfClient exArgs exW0).2.2).map
      OvsSavedData.VhostMac = some [] :=
  ⟨rfl, rfl⟩

/-- Claim C7 (amended): a failure of the port-MAC query after the port was
created is not propagated — the err variable is shadowed in the source —
so AddOnHost proceeds, saves the record with vhostPortMac left
unpopulated, and returns success. -/
theorem claim_C7 (env : Env) (conf : NetConf) (args : CmdArgs) (w : World)
    (hif : conf.HostConf.IfType = "vhostuser")
    (hb : env.createBridgeOk = true) (hmk : env.mkdirOk = true)
    (hcp : env.createPortOk = true) (hsv : env.saveOk = true)
    (hmac : env.portMac = none) :
    (AddOnHost env conf args w).1 = Except.ok () ∧
    (loadConfig args (AddOnHost env conf args w).2.2).map OvsSavedData.VhostMac =
      some [] := by
  rw [AddOnHost_steps env conf args w hif hb hmk hcp hsv]
  refine ⟨rfl, ?_⟩
  dsimp only
  rw [loadConfig_saveConfig]
  have hm := addLocalDeviceVhost_noMac env (normalizeConf conf) args emptyData
    (addLocalNetworkBridge env (normalizeConf conf) w).2 hmk hcp hmac
  show some ((addLocalDeviceVhost env (normalizeConf conf) args emptyData
    (addLocalNetworkBridge env (normalizeConf conf) w).2).2.1.VhostMac) = some []
  rw [hm]
  rfl

/-- Witness for claim C7 (amended) at the counterexample input. -/
theorem claim_C7_witness :
    exConfClient.HostConf.IfType = "vhostuser" ∧
    exEnvMacFail.portMac = none ∧
    ((AddOnHost exEnvMacFail exConfClient exArgs exW0).1 = Except.ok () ∧
     (loadConfig exArgs (AddOnHost exEnvMacFail exConfClient exArgs exW0).2.2).map
       OvsSavedData.VhostMac = some []) :=
  ⟨rfl, rfl, claim_C7 exEnvMacFail exConfClient exArgs exW0 rfl rfl rfl rfl rfl rfl⟩

/-- Claim C10: when the saved record is found, the port deletion succeeds,
the attachment's reference string is free of regex metacharacters (so the
pattern compiles and matches literally) and every file of the
socket-directory listing matches the attachment's pattern, DelFromHost
removes the socket directory itself — including the edge case of an empty
listing, where the directory is removed even though no file was deleted. -/
theorem claim_C10 (env : Env) (conf : NetConf) (args : CmdArgs) (w : World)
    (data : OvsSavedData)
    (hload : loadConfig args w = some data)
    (hif : conf.HostConf.IfType = "vhostuser")
    (h1 : env.deletePortOk = true) (h2 : env.readdirOk = true)
    (h3 : env.removesOk = true) (h4 : env.removeDirOk = true)
    (h5 : w.sockDirExists = true)
    (hlit : regexLiteral (args.ContainerID.take 12 ++ "-" ++ args.IfName) = true)
    (hall : ∀ f ∈ w.sockFiles,
        fileNameMatch (args.ContainerID.take 12 ++ "-" ++ args.IfName) f = true) :
    (DelFromHost env conf args w).2.2.sockDirExists = false := by
  have hD := delLocalDeviceVhost_files env (normalizeConf conf) args data w h1 h2 h3 h4 h5
  rw [DelFromHost_steps env conf args w data hload hif hD.1]
  have hfr := delLocalNetworkBridge_frame env (normalizeConf conf)
    (delLocalDeviceVhost env (normalizeConf conf) args data w).2
  dsimp only
  rw [hfr.2.1, hD.2.2, List.filter_eq_self.mpr hall]
  simp

/-- Witness for claim C10 on an empty socket-directory listing: the
directory is removed although no file was deleted by the call. -/
theorem claim_C10_witness :
    loadConfig exArgs exW5empty = some exData ∧
    exW5empty.sockFiles = [] ∧
    exW5empty.sockDirExists = true ∧
    regexLiteral (exArgs.ContainerID.take 12 ++ "-" ++ exArgs.IfName) = true ∧
    (DelFromHost exEnv exConfDel exArgs exW5empty).2.2.sockDirExists = false :=
  ⟨rfl, rfl, rfl, by decide,
   claim_C10 exEnv exConfDel exArgs exW5empty exData rfl rfl rfl rfl rfl rfl rfl
     (by decide) (by simp [exW5empty, exW5])⟩

end CniOvs
